import Mathlib

/-!
Shallow embedding of `src/crates/roc_host/src/http_server.rs` from
isaacvando/basic-webserver: the request/response bridging pipeline of a
small HTTP server host (translation of wire requests to a normalized
request, dispatch of the handler onto a blocking worker pool, and the
fault-isolation wrapper converting panics into 500 responses).

Machine strings and byte buffers are modelled as Lean `String` and
`List Nat` (byte values); panics are modelled with `Except`; the tokio
`spawn_blocking` join result is modelled with an explicit `JoinError`
type whose two constructors mirror tokio's cancelled/panicked join
errors.
-/

namespace HttpServer

/-- Bytes of a string, as the Rust `&str -> RocStr`/`Body` conversions copy
them (every literal involved is ASCII, where the UTF-8 bytes are the code
points). -/
def strBytes (s : String) : List Nat :=
  s.data.map Char.toNat

/-- Model of `hyper::header::HeaderValue`: an opaque byte sequence (hyper
permits bytes outside visible ASCII in header values). -/
structure HeaderValue where
  bytes : List Nat
deriving Repr, DecidableEq

/-- Visibility test used by `http::HeaderValue::to_str`: a byte converts to
text iff it is visible ASCII (0x20..0x7E) or horizontal tab. -/
def isVisibleAscii (b : Nat) : Bool :=
  (32 ≤ b && b < 127) || b == 9

/-- Model of `HeaderValue::to_str`: succeeds iff every byte is visible
ASCII (or tab), returning the value decoded as text. -/
def HeaderValue.toStr (v : HeaderValue) : Option String :=
  if v.bytes.all isVisibleAscii then
    some (String.mk (v.bytes.map Char.ofNat))
  else
    none

/-- Header value built from an ASCII text literal. -/
def HeaderValue.ofString (s : String) : HeaderValue :=
  ⟨strBytes s⟩

/-- Model of `roc_http::Header`: name and value as text (`RocStr`). -/
structure Header where
  name : String
  value : String
deriving Repr, DecidableEq

/-- Model of `roc_http::MethodTag`. -/
inductive MethodTag where
  | get | post | put | delete | head | options | connect | patch | trace
  | extension
deriving Repr, DecidableEq

/-- Model of `roc_http::RequestToAndFromHost` as built in `call_roc`. -/
structure RequestToAndFromHost where
  body : List Nat
  headers : List Header
  method : MethodTag
  uri : String
  method_ext : String
  timeout_ms : Nat
deriving Repr, DecidableEq

/-- Model of a `hyper::Response<hyper::Body>`: status code, headers, body
bytes. -/
structure Response where
  status : Nat
  headers : List Header
  body : List Nat
deriving Repr, DecidableEq

/-- Outcome of a computation that can panic. `Except PanicPayload α` models a
Rust computation of type `α` that may unwind. -/
inductive PanicPayload where
  | panicked
deriving Repr, DecidableEq

/-- Method translation from `call_roc` lines 55-68: each standard verb (as
`reqwest::Method` compares by its verb text) maps to its enumerated tag with
an empty `method_ext`; any other verb maps to `Extension` carrying the verb
text. -/
def methodToTag (m : String) : MethodTag × String :=
  if m = "GET" then (MethodTag.get, "")
  else if m = "POST" then (MethodTag.post, "")
  else if m = "PUT" then (MethodTag.put, "")
  else if m = "DELETE" then (MethodTag.delete, "")
  else if m = "HEAD" then (MethodTag.head, "")
  else if m = "OPTIONS" then (MethodTag.options, "")
  else if m = "CONNECT" then (MethodTag.connect, "")
  else if m = "PATCH" then (MethodTag.patch, "")
  else if m = "TRACE" then (MethodTag.trace, "")
  else (MethodTag.extension, m)

/-- Header translation from `call_roc` lines 45-53: each `(name, value)`
pair becomes a `roc_http::Header` via `value.to_str().expect(...)`; the
iterator collects in order, and the first value that is not valid text makes
the `expect` panic (modelled as `none`). -/
def translateHeaders : List (String × HeaderValue) → Option (List Header)
  | [] => some []
  | (k, v) :: rest =>
    match v.toStr with
    | none => none
    | some s => (translateHeaders rest).map (fun hs => ⟨k, s⟩ :: hs)

/-- Construction of the `roc_request` value in `call_roc` lines 45-78: the
headers are translated (panicking on a non-text value), the method is split
into tag and extension text, the body bytes are passed through via
`RocList::from_raw_parts` (same pointer and length, hence the same bytes),
the URI is rendered with `to_string`, and `timeout_ms` is the literal 0. -/
def translateRequest (method : String) (uri : String)
    (headers : List (String × HeaderValue)) (body : List Nat) :
    Option RequestToAndFromHost :=
  match translateHeaders headers with
  | none => none
  | some hs =>
    let me := methodToTag method
    some { body := body
           headers := hs
           method := me.1
           uri := uri
           method_ext := me.2
           timeout_ms := 0 }

/-- The Roc handler boundary: `roc::call_roc_respond` composed with the
response conversion `roc_response.into()`. It is an external collaborator
that may itself fault, so it is a parameter of type
`RequestToAndFromHost → Except PanicPayload Response`. -/
def Handler : Type :=
  RequestToAndFromHost → Except PanicPayload Response

/-- Body of `call_roc` (lines 39-86): translate the request (the `expect`
on a non-text header value panics) and invoke the handler on it. -/
def call_roc (handler : Handler) (method : String) (uri : String)
    (headers : List (String × HeaderValue)) (body : List Nat) :
    Except PanicPayload Response :=
  match translateRequest method uri headers body with
  | none => Except.error PanicPayload.panicked
  | some req => handler req

/-- Model of `tokio::task::JoinError`: the join handle of a spawned task
reports either that the task panicked or that the pool cancelled/failed to
run it. -/
inductive JoinError where
  | cancelled
  | panicked
deriving Repr, DecidableEq

/-- Whether the worker pool executes the dispatched task. -/
inductive DispatchOutcome where
  | executed
  | poolFailure
deriving Repr, DecidableEq

/-- Model of `spawn_blocking` (line 94): when the pool executes the task, a
panic inside the closure is captured as `JoinError.panicked` and a normal
result is returned as `ok`; when the pool fails to execute the task the join
result is `JoinError.cancelled`. -/
def spawn_blocking (d : DispatchOutcome)
    (task : Except PanicPayload Response) : Except JoinError Response :=
  match d with
  | DispatchOutcome.poolFailure => Except.error JoinError.cancelled
  | DispatchOutcome.executed =>
    match task with
    | Except.error _ => Except.error JoinError.panicked
    | Except.ok r => Except.ok r

/-- The `.then(|resp| async { resp.unwrap() })` continuation (lines 95-97):
`unwrap` on an `Err(JoinError)` panics inside the async computation. -/
def unwrapJoin : Except JoinError Response → Except PanicPayload Response
  | Except.ok r => Except.ok r
  | Except.error _ => Except.error PanicPayload.panicked

/-- The synthesized bad-request response of `handle_req` lines 100-105:
status 400, no headers, the fixed body text. -/
def badRequestResponse : Response :=
  { status := 400, headers := [], body := strBytes "Error receiving HTTP request body" }

/-- Body of `handle_req` (lines 88-107): the body read result
(`hyper::body::to_bytes`) is `some bytes` on success and `none` on a
connection error or truncation; on success the `call_roc` closure is
dispatched with `spawn_blocking` and the join result unwrapped; on failure
a 400 response is synthesized without touching the handler. -/
def handle_req (handler : Handler) (d : DispatchOutcome)
    (method : String) (uri : String)
    (headers : List (String × HeaderValue))
    (bodyRead : Option (List Nat)) : Except PanicPayload Response :=
  match bodyRead with
  | some body => unwrapJoin (spawn_blocking d (call_roc handler method uri headers body))
  | none => Except.ok badRequestResponse

/-- The synthesized internal-error response of `handle_panics` lines
116-119: status 500, no headers, the fixed diagnostic body. -/
def internalErrorResponse : Response :=
  { status := 500, headers := [], body := strBytes "Panic detected!" }

/-- Body of `handle_panics` (lines 109-124): `catch_unwind` on the wrapped
future; a normal completion is forwarded unchanged in `Ok`, an abnormal one
is replaced by the fixed 500 response. The return type
`Result<_, Infallible>` is modelled as `Except Empty Response`. -/
def handle_panics (fut : Except PanicPayload Response) : Except Empty Response :=
  match fut with
  | Except.ok response => Except.ok response
  | Except.error _ => Except.ok internalErrorResponse

/-- The composed per-request service installed in `run_server` line 134:
`handle_panics(handle_req(req))`. -/
def service (handler : Handler) (d : DispatchOutcome)
    (method : String) (uri : String)
    (headers : List (String × HeaderValue))
    (bodyRead : Option (List Nat)) : Except Empty Response :=
  handle_panics (handle_req handler d method uri headers bodyRead)

/-- Constant `DEFAULT_PORT` (line 13). -/
def DEFAULT_PORT : Nat := 8000

/-- An IP address as `std::net::IpAddr`: IPv4 octets, or IPv6 as its
eight 16-bit groups together with the scope id. -/
inductive IpAddr where
  | v4 (a b c d : Nat)
  | v6 (groups : List Nat) (scopeId : Nat)
deriving Repr, DecidableEq

/-- A parsed socket address, the result of
`"host:port".parse::<SocketAddr>()`. -/
structure SocketAddr where
  ip : IpAddr
  port : Nat
deriving Repr, DecidableEq

/-- Digit value of a character in the given radix (`char::to_digit`, for
the radices 10 and 16 the address parser uses). -/
def charToDigit (radix : Nat) (c : Char) : Option Nat :=
  let v :=
    if '0' ≤ c && c ≤ '9' then some (c.toNat - 48)
    else if 'a' ≤ c && c ≤ 'f' then some (c.toNat - 87)
    else if 'A' ≤ c && c ≤ 'F' then some (c.toNat - 55)
    else none
  match v with
  | some d => if d < radix then some d else none
  | none => none

/-- Greedy run of digits in the given radix, as the loop inside
`Parser::read_number` consumes them. -/
def takeDigits (radix : Nat) : List Char → (List Nat × List Char)
  | [] => ([], [])
  | c :: rest =>
    match charToDigit radix c with
    | none => ([], c :: rest)
    | some d =>
      let s := takeDigits radix rest
      (d :: s.1, s.2)

/-- Model of `Parser::read_number(radix, max_digits, allow_zero_prefix)`
read into a machine integer with maximum value `maxVal`: a greedy
non-empty digit run, failing on too many digits, on a disallowed leading
zero, and on overflow of the target type. -/
def readNumber (radix : Nat) (maxDigits : Option Nat) (allowZeroPrefix : Bool)
    (maxVal : Nat) (cs : List Char) : Option (Nat × List Char) :=
  let hasLeadingZero := match cs with | '0' :: _ => true | _ => false
  let s := takeDigits radix cs
  if s.1.isEmpty then none
  else if (match maxDigits with | some k => Nat.blt k s.1.length | none => false) then
    none
  else if !allowZeroPrefix && hasLeadingZero && Nat.blt 1 s.1.length then none
  else
    let val := s.1.foldl (fun n d => n * radix + d) 0
    if val ≤ maxVal then some (val, s.2) else none

/-- Model of `Parser::read_given_char`. -/
def readGivenChar (c : Char) (cs : List Char) : Option (Unit × List Char) :=
  match cs with
  | c0 :: rest => if c0 = c then some ((), rest) else none
  | [] => none

/-- Model of `Parser::read_separator`: at every index after the first the
separator precedes the item; a failed read consumes nothing. -/
def readSep {α : Type} (sep : Char) (isFirst : Bool)
    (inner : List Char → Option (α × List Char)) (cs : List Char) :
    Option (α × List Char) :=
  if isFirst then inner cs
  else
    match readGivenChar sep cs with
    | none => none
    | some (_, cs1) => inner cs1

/-- Model of `Parser::read_ipv4_addr`: four octets separated by dots, each
read with at most three digits, no leading zero, and value at most 255. -/
def readIpv4Addr (cs : List Char) : Option ((Nat × Nat × Nat × Nat) × List Char) := do
  let (a, cs) ← readNumber 10 (some 3) false 255 cs
  let (_, cs) ← readGivenChar '.' cs
  let (b, cs) ← readNumber 10 (some 3) false 255 cs
  let (_, cs) ← readGivenChar '.' cs
  let (c, cs) ← readNumber 10 (some 3) false 255 cs
  let (_, cs) ← readGivenChar '.' cs
  let (d, cs) ← readNumber 10 (some 3) false 255 cs
  some ((a, b, c, d), cs)

/-- Model of the `read_groups` loop inside `Parser::read_ipv6_addr`: up to
`limit` 16-bit hexadecimal groups separated by colons (no separator before
the first); while at least two slots remain, a trailing embedded IPv4
address may fill two groups and end the run. Returns the groups read,
whether the embedded IPv4 form ended the run, and the remaining input. -/
def readGroups : Nat → Bool → List Char → (List Nat × Bool × List Char)
  | 0, _, cs => ([], false, cs)
  | limit + 1, isFirst, cs =>
    let v4Try :=
      if 1 ≤ limit then
        match readSep ':' isFirst readIpv4Addr cs with
        | some ((a, b, c, d), rest) => some ([a * 256 + b, c * 256 + d], rest)
        | none => none
      else none
    match v4Try with
    | some (gs, rest) => (gs, true, rest)
    | none =>
      match readSep ':' isFirst (readNumber 16 (some 4) true 65535) cs with
      | none => ([], false, cs)
      | some (g, cs1) =>
        let s := readGroups limit false cs1
        (g :: s.1, s.2.1, s.2.2)

/-- Model of `Parser::read_ipv6_addr`: either a full eight groups, or a
shorter head, a `::` compression standing for the missing zero groups (at
least one), and a tail bounded so the total stays below eight; an embedded
IPv4 part is only allowed at the end. -/
def readIpv6Addr (cs : List Char) : Option (List Nat × List Char) :=
  let h := readGroups 8 true cs
  if h.1.length = 8 then some (h.1, h.2.2)
  else if h.2.1 then none
  else
    match readGivenChar ':' h.2.2 with
    | none => none
    | some (_, cs2) =>
      match readGivenChar ':' cs2 with
      | none => none
      | some (_, cs3) =>
        let t := readGroups (8 - (h.1.length + 1)) true cs3
        some (h.1 ++ List.replicate (8 - h.1.length - t.1.length) 0 ++ t.1, t.2.2)

/-- Model of `Parser::read_scope_id`: an optional `%` followed by a
decimal `u32`, defaulting to 0 and consuming nothing when absent or
unreadable. -/
def readScopeId (cs : List Char) : (Nat × List Char) :=
  match readGivenChar '%' cs with
  | none => (0, cs)
  | some (_, cs1) =>
    match readNumber 10 none true 4294967295 cs1 with
    | none => (0, cs)
    | some (n, cs2) => (n, cs2)

/-- Model of `Parser::read_port`: a colon then a decimal `u16` with zero
prefix allowed. -/
def readPort (cs : List Char) : Option (Nat × List Char) :=
  match readGivenChar ':' cs with
  | none => none
  | some (_, cs1) => readNumber 10 none true 65535 cs1

/-- Model of `Parser::read_socket_addr_v4`: IPv4 address then port. -/
def readSocketAddrV4 (cs : List Char) : Option (SocketAddr × List Char) := do
  let (ip, cs) ← readIpv4Addr cs
  let (port, cs) ← readPort cs
  some (⟨IpAddr.v4 ip.1 ip.2.1 ip.2.2.1 ip.2.2.2, port⟩, cs)

/-- Model of `Parser::read_socket_addr_v6`: a bracketed IPv6 address with
an optional scope id, then the port. -/
def readSocketAddrV6 (cs : List Char) : Option (SocketAddr × List Char) := do
  let (_, cs) ← readGivenChar '[' cs
  let (groups, cs) ← readIpv6Addr cs
  let scope := readScopeId cs
  let (_, cs2) ← readGivenChar ']' scope.2
  let (port, cs3) ← readPort cs2
  some (⟨IpAddr.v6 groups scope.1, port⟩, cs3)

/-- Model of `"{host}:{port}".parse::<SocketAddr>()` following
`core::net::parser`: a `SocketAddrV4` attempt, then a `SocketAddrV6`
attempt, with the whole string consumed (the parse does no name
resolution: a hostname such as `localhost` fails to parse). -/
def parseSocketAddr (s : String) : Option SocketAddr :=
  let r :=
    match readSocketAddrV4 s.data with
    | some out => some out
    | none => readSocketAddrV6 s.data
  match r with
  | some (addr, []) => some addr
  | _ => none

/-- Host resolution from `run_server` line 127: the host environment
variable, defaulting to `"127.0.0.1"` when unset. -/
def resolveHost (hostEnv : Option String) : String :=
  hostEnv.getD "127.0.0.1"

/-- Port resolution from `run_server` line 128: the port environment
variable, defaulting to the text of `DEFAULT_PORT` when unset. -/
def resolvePort (portEnv : Option String) : String :=
  portEnv.getD (toString DEFAULT_PORT)

/-- Address resolution from `run_server` lines 127-131:
`format!("{}:{}", host, port).parse::<SocketAddr>()`. -/
def resolveAddr (hostEnv portEnv : Option String) : Option SocketAddr :=
  parseSocketAddr (resolveHost hostEnv ++ ":" ++ resolvePort portEnv)

/-- Result of `server.await` in `run_server` line 140: the hyper server
loop either shuts down gracefully or ends with a protocol-level error. -/
inductive ServeResult where
  | gracefulShutdown
  | protocolError
deriving Repr, DecidableEq

/-- Result of `hyper::Server::bind`: binding succeeds or fails; in hyper
a bind failure panics inside `Server::bind`. -/
inductive BindResult where
  | bound
  | bindFailed
deriving Repr, DecidableEq

/-- How a run of `run_server` (lines 126-148) ends: the address parse
`expect` panics, the bind panics, or the server loop runs and completes. -/
inductive ServerRun where
  | parsePanic
  | bindPanic
  | served (r : ServeResult)
deriving Repr, DecidableEq

/-- Control flow of `run_server` lines 126-148: resolve the listening
address (the `expect` on a failed parse panics before any bind or serve),
bind (a failure panics before any request is served), then drive the server
loop to completion. The bind and serve outcomes are environment inputs. -/
def run_server (hostEnv portEnv : Option String)
    (bind : SocketAddr → BindResult)
    (serve : SocketAddr → ServeResult) : ServerRun :=
  match resolveAddr hostEnv portEnv with
  | none => ServerRun.parsePanic
  | some addr =>
    match bind addr with
    | BindResult.bindFailed => ServerRun.bindPanic
    | BindResult.bound => ServerRun.served (serve addr)

/-- Exit status of an uncaught panic in the main thread of a Rust
process. -/
def PANIC_EXIT_CODE : Nat := 101

/-- Process exit status determined by `run_server` lines 140-147 (0 on
`Ok`, 1 on `Err`) together with the panic exit status for the two fatal
startup panics. -/
def exitCode : ServerRun → Nat
  | ServerRun.parsePanic => PANIC_EXIT_CODE
  | ServerRun.bindPanic => PANIC_EXIT_CODE
  | ServerRun.served ServeResult.gracefulShutdown => 0
  | ServerRun.served ServeResult.protocolError => 1

/-- Whether a run of the server reached the serving loop at all: only a
`served` run ever accepts a connection or serves a request. -/
def reachedServing : ServerRun → Bool
  | ServerRun.served _ => true
  | ServerRun.parsePanic => false
  | ServerRun.bindPanic => false

/-- A concrete normal response used to instantiate boundary results. -/
def okResponse : Response :=
  { status := 200, headers := [⟨"content-type", "text/plain"⟩], body := strBytes "OK" }

/-- Handler that answers every request with `okResponse`. -/
def okHandler : Handler := fun _ => Except.ok okResponse

/-- Helper: a header list containing a value that is not valid text makes
the collecting translation panic (modelled as `none`), whichever position
the bad value occupies. -/
theorem translateHeaders_none_of_bad (hs : List (String × HeaderValue))
    (h : ∃ p ∈ hs, p.2.toStr = none) : translateHeaders hs = none := by
  induction hs with
  | nil => obtain ⟨p, hp, _⟩ := h; exact absurd hp (List.not_mem_nil p)
  | cons q rest ih =>
    obtain ⟨k, v⟩ := q
    obtain ⟨p, hp, hnone⟩ := h
    rcases List.mem_cons.mp hp with h1 | hmem
    · subst h1
      simp only [translateHeaders, hnone]
    · simp only [translateHeaders, ih ⟨p, hmem, hnone⟩, Option.map_none]
      cases v.toStr <;> rfl

/-- Helper: when every header value decodes to text, the collecting
translation succeeds and zips the names, in order, with the decoded
texts. -/
theorem translateHeaders_all_text (hs : List (String × HeaderValue))
    (texts : List String)
    (h : hs.map (fun p => p.2.toStr) = texts.map some) :
    translateHeaders hs =
      some (List.zipWith (fun n t => Header.mk n t) (hs.map Prod.fst) texts) := by
  induction hs generalizing texts with
  | nil =>
    cases texts with
    | nil => rfl
    | cons t ts => simp at h
  | cons q rest ih =>
    obtain ⟨k, v⟩ := q
    cases texts with
    | nil => simp at h
    | cons t ts =>
      simp only [List.map_cons, List.cons.injEq] at h
      obtain ⟨h1, h2⟩ := h
      simp only [translateHeaders, h1, ih ts h2]
      rfl

/-- C1: the fault-isolation wrapper `handle_panics` forwards a normal
completion unchanged, and converts any abnormal termination of the wrapped
per-request computation into the fixed 500 response with the diagnostic
body, never letting the fault escape. -/
theorem handle_panics_isolation (fut : Except PanicPayload Response) :
    internalErrorResponse.status = 500 ∧
    internalErrorResponse.body = strBytes "Panic detected!" ∧
    (∀ r, fut = Except.ok r → handle_panics fut = Except.ok r) ∧
    (∀ e, fut = Except.error e → handle_panics fut = Except.ok internalErrorResponse) := by
  refine ⟨rfl, rfl, ?_, ?_⟩
  · intro r h; rw [h]; rfl
  · intro e h; rw [h]; rfl

/-- Witness for C1 at a concrete normal completion and a concrete panic. -/
theorem handle_panics_isolation_witness :
    handle_panics (Except.ok okResponse) = Except.ok okResponse ∧
    handle_panics (Except.error PanicPayload.panicked) = Except.ok internalErrorResponse :=
  ⟨(handle_panics_isolation (Except.ok okResponse)).2.2.1 okResponse rfl,
   (handle_panics_isolation (Except.error PanicPayload.panicked)).2.2.2
     PanicPayload.panicked rfl⟩

/-- C2: the method translation maps each of the nine standard verbs to its
enumerated tag with empty `method_ext`, and any other verb to the
`extension` tag carrying the verb text itself. -/
theorem method_translation :
    methodToTag "GET" = (MethodTag.get, "") ∧
    methodToTag "POST" = (MethodTag.post, "") ∧
    methodToTag "PUT" = (MethodTag.put, "") ∧
    methodToTag "DELETE" = (MethodTag.delete, "") ∧
    methodToTag "HEAD" = (MethodTag.head, "") ∧
    methodToTag "OPTIONS" = (MethodTag.options, "") ∧
    methodToTag "CONNECT" = (MethodTag.connect, "") ∧
    methodToTag "PATCH" = (MethodTag.patch, "") ∧
    methodToTag "TRACE" = (MethodTag.trace, "") ∧
    (∀ m, m ∉ (["GET", "POST", "PUT", "DELETE", "HEAD", "OPTIONS",
        "CONNECT", "PATCH", "TRACE"] : List String) →
      methodToTag m = (MethodTag.extension, m)) := by
  refine ⟨rfl, rfl, rfl, rfl, rfl, rfl, rfl, rfl, rfl, ?_⟩
  intro m hm
  simp only [List.mem_cons, List.not_mem_nil, or_false, not_or] at hm
  obtain ⟨h1, h2, h3, h4, h5, h6, h7, h8, h9⟩ := hm
  simp [methodToTag, h1, h2, h3, h4, h5, h6, h7, h8, h9]

/-- Witness for C2 at the non-standard verb PURGE. -/
theorem method_translation_witness :
    ("PURGE" ∉ (["GET", "POST", "PUT", "DELETE", "HEAD", "OPTIONS",
        "CONNECT", "PATCH", "TRACE"] : List String)) ∧
    methodToTag "PURGE" = (MethodTag.extension, "PURGE") :=
  ⟨by decide,
   method_translation.2.2.2.2.2.2.2.2.2 "PURGE" (by decide)⟩

/-- Counterexample to C3 as stated: a request whose header value is the
single byte 200 (not visible ASCII, hence not representable as text) does
not get a bad-request-class response: the `expect` in the translation
panics (`handle_req` ends abnormally) and the fault wrapper synthesizes
the 500 internal-error response, whose status is not in the 4xx class. -/
theorem header_not_text_counterexample :
    HeaderValue.toStr ⟨[200]⟩ = none ∧
    handle_req okHandler DispatchOutcome.executed "GET" "/"
        [("x-raw", ⟨[200]⟩)] (some []) = Except.error PanicPayload.panicked ∧
    service okHandler DispatchOutcome.executed "GET" "/"
        [("x-raw", ⟨[200]⟩)] (some []) = Except.ok internalErrorResponse ∧
    ¬ (400 ≤ internalErrorResponse.status ∧ internalErrorResponse.status < 500) :=
  ⟨rfl, rfl, rfl, by decide⟩

/-- C3 amended: a header value that is not valid text makes the request
translation panic; the panic is contained by the wrapper, so (for every
handler, which is never invoked, and every dispatch outcome) the client
receives the synthesized 500 internal-error response and the service call
still returns normally. -/
theorem header_not_text_gives_500 (handler : Handler) (d : DispatchOutcome)
    (m uri : String) (hs : List (String × HeaderValue)) (body : List Nat)
    (h : ∃ p ∈ hs, p.2.toStr = none) :
    service handler d m uri hs (some body) = Except.ok internalErrorResponse ∧
    internalErrorResponse.status = 500 := by
  have hcr : call_roc handler m uri hs body = Except.error PanicPayload.panicked := by
    unfold call_roc translateRequest
    rw [translateHeaders_none_of_bad hs h]
  cases d with
  | executed =>
    refine ⟨?_, rfl⟩
    show handle_panics (unwrapJoin (spawn_blocking DispatchOutcome.executed
      (call_roc handler m uri hs body))) = Except.ok internalErrorResponse
    rw [hcr]
    rfl
  | poolFailure => exact ⟨rfl, rfl⟩

/-- Witness for the amended C3 at a concrete request with one good and one
bad header value. -/
theorem header_not_text_gives_500_witness :
    (∃ p ∈ ([("a", HeaderValue.ofString "ok"), ("b", (⟨[0]⟩ : HeaderValue))] :
        List (String × HeaderValue)), p.2.toStr = none) ∧
    service okHandler DispatchOutcome.executed "POST" "/x"
        [("a", HeaderValue.ofString "ok"), ("b", ⟨[0]⟩)] (some [1, 2]) =
      Except.ok internalErrorResponse ∧
    internalErrorResponse.status = 500 :=
  ⟨⟨("b", ⟨[0]⟩), by decide, rfl⟩,
   header_not_text_gives_500 okHandler DispatchOutcome.executed "POST" "/x"
     [("a", HeaderValue.ofString "ok"), ("b", ⟨[0]⟩)] [1, 2]
     ⟨("b", ⟨[0]⟩), by decide, rfl⟩⟩

/-- C4: when the body read fails (`hyper::body::to_bytes` returns an
error), `handle_req` short-circuits to the fixed 400 bad-request response
for every handler and dispatch outcome — the handler is never consulted —
and the composed service forwards that response. -/
theorem body_error_short_circuit (handler : Handler) (d : DispatchOutcome)
    (m uri : String) (hs : List (String × HeaderValue)) :
    handle_req handler d m uri hs none = Except.ok badRequestResponse ∧
    service handler d m uri hs none = Except.ok badRequestResponse ∧
    badRequestResponse.status = 400 ∧
    badRequestResponse.body = strBytes "Error receiving HTTP request body" :=
  ⟨rfl, rfl, rfl, rfl⟩

/-- C5: for every input, the composed service `handle_panics ∘ handle_req`
returns exactly one response in the infallible `Ok` — either a response
the handler produced, or the synthesized 400, or the synthesized 500 —
never zero and never an error at the service boundary. -/
theorem service_exactly_one_response (handler : Handler) (d : DispatchOutcome)
    (m uri : String) (hs : List (String × HeaderValue))
    (bodyRead : Option (List Nat)) :
    ∃ r, service handler d m uri hs bodyRead = Except.ok r ∧
      (∀ r2, service handler d m uri hs bodyRead = Except.ok r2 → r2 = r) ∧
      ((∃ req, handler req = Except.ok r) ∨
        r = badRequestResponse ∨ r = internalErrorResponse) := by
  cases bodyRead with
  | none =>
    exact ⟨badRequestResponse, rfl,
      fun r2 h2 => (Except.ok.inj h2).symm, Or.inr (Or.inl rfl)⟩
  | some body =>
    cases d with
    | poolFailure =>
      exact ⟨internalErrorResponse, rfl,
        fun r2 h2 => (Except.ok.inj h2).symm, Or.inr (Or.inr rfl)⟩
    | executed =>
      cases hcr : call_roc handler m uri hs body with
      | error p =>
        have hs1 : service handler DispatchOutcome.executed m uri hs (some body) =
            Except.ok internalErrorResponse := by
          show handle_panics (unwrapJoin (spawn_blocking DispatchOutcome.executed
            (call_roc handler m uri hs body))) = Except.ok internalErrorResponse
          rw [hcr]
          rfl
        exact ⟨internalErrorResponse, hs1,
          fun r2 h2 => (Except.ok.inj (hs1.symm.trans h2)).symm, Or.inr (Or.inr rfl)⟩
      | ok resp =>
        have hs1 : service handler DispatchOutcome.executed m uri hs (some body) =
            Except.ok resp := by
          show handle_panics (unwrapJoin (spawn_blocking DispatchOutcome.executed
            (call_roc handler m uri hs body))) = Except.ok resp
          rw [hcr]
          rfl
        refine ⟨resp, hs1,
          fun r2 h2 => (Except.ok.inj (hs1.symm.trans h2)).symm, Or.inl ?_⟩
        unfold call_roc at hcr
        cases htr : translateRequest m uri hs body with
        | none => rw [htr] at hcr; simp at hcr
        | some req => rw [htr] at hcr; exact ⟨req, hcr⟩

/-- C6: the blocking-call isolator reports a pool failure as the
`cancelled` join error, distinct from the `panicked` join error that a
fault inside the dispatched task produces, and for a pool failure the
client still receives the synthesized 500 internal-error response. -/
theorem dispatch_failure_distinct (task : Except PanicPayload Response)
    (p : PanicPayload) (handler : Handler) (m uri : String)
    (hs : List (String × HeaderValue)) (body : List Nat) :
    spawn_blocking DispatchOutcome.poolFailure task = Except.error JoinError.cancelled ∧
    spawn_blocking DispatchOutcome.executed (Except.error p) = Except.error JoinError.panicked ∧
    JoinError.cancelled ≠ JoinError.panicked ∧
    service handler DispatchOutcome.poolFailure m uri hs (some body) =
      Except.ok internalErrorResponse ∧
    internalErrorResponse.status = 500 :=
  ⟨rfl, rfl, by decide, rfl, rfl⟩

/-- C7: for every request whose header values all decode to text, the
translation builds the normalized request with the body bytes passed
through unmodified, the headers as the ordered name/text pairs (duplicates
preserved in order), and the URI rendered as its text. -/
theorem translation_passthrough (m uri : String)
    (hs : List (String × HeaderValue)) (texts : List String) (body : List Nat)
    (h : hs.map (fun p => p.2.toStr) = texts.map some) :
    translateRequest m uri hs body =
      some { body := body
             headers := List.zipWith (fun n t => Header.mk n t) (hs.map Prod.fst) texts
             method := (methodToTag m).1
             uri := uri
             method_ext := (methodToTag m).2
             timeout_ms := 0 } := by
  unfold translateRequest
  rw [translateHeaders_all_text hs texts h]

/-- Witness for C7 at a request with a duplicated header name. -/
theorem translation_passthrough_witness :
    (([("x", HeaderValue.ofString "1"), ("x", HeaderValue.ofString "2")] :
        List (String × HeaderValue)).map (fun p => p.2.toStr) =
      (["1", "2"] : List String).map some) ∧
    translateRequest "GET" "/a"
        [("x", HeaderValue.ofString "1"), ("x", HeaderValue.ofString "2")] [7, 8] =
      some { body := [7, 8]
             headers := [⟨"x", "1"⟩, ⟨"x", "2"⟩]
             method := MethodTag.get
             uri := "/a"
             method_ext := ""
             timeout_ms := 0 } :=
  ⟨by decide,
   translation_passthrough "GET" "/a"
     [("x", HeaderValue.ofString "1"), ("x", HeaderValue.ofString "2")]
     ["1", "2"] [7, 8] (by decide)⟩

/-- Parse-model fidelity check: a bracketed IPv6 host, as Rust's
`SocketAddr` parser accepts it, parses in the model too, so a parse
failure in the model is a genuine startup failure. -/
theorem parseSocketAddr_accepts_ipv6 :
    parseSocketAddr "[::1]:8000" =
      some ⟨IpAddr.v6 [0, 0, 0, 0, 0, 0, 0, 1] 0, 8000⟩ ∧
    resolveAddr (some "[::1]") none =
      some ⟨IpAddr.v6 [0, 0, 0, 0, 0, 0, 0, 1] 0, 8000⟩ ∧
    parseSocketAddr "[2001:db8::1]:443" =
      some ⟨IpAddr.v6 [8193, 3512, 0, 0, 0, 0, 0, 1] 0, 443⟩ ∧
    parseSocketAddr "[::ffff:1.2.3.4]:80" =
      some ⟨IpAddr.v6 [0, 0, 0, 0, 0, 65535, 258, 772] 0, 80⟩ := by
  refine ⟨by decide, by decide, by decide, by decide⟩

/-- C8: the bind host defaults to 127.0.0.1 and the bind port to 8000 when
the environment settings are unset, the default combination resolves to
the loopback socket address, and a combination that fails to parse makes
`run_server` panic at startup: the exit status is non-zero and the serving
loop is never reached. -/
theorem listening_config (he pe : Option String)
    (bind : SocketAddr → BindResult) (serve : SocketAddr → ServeResult) :
    resolveHost none = "127.0.0.1" ∧
    resolvePort none = "8000" ∧
    DEFAULT_PORT = 8000 ∧
    resolveAddr none none = some ⟨IpAddr.v4 127 0 0 1, 8000⟩ ∧
    (resolveAddr he pe = none →
      run_server he pe bind serve = ServerRun.parsePanic ∧
      exitCode (run_server he pe bind serve) ≠ 0 ∧
      reachedServing (run_server he pe bind serve) = false) := by
  refine ⟨rfl, rfl, rfl, by decide, ?_⟩
  intro h
  have hr : run_server he pe bind serve = ServerRun.parsePanic := by
    unfold run_server
    rw [h]
  rw [hr]
  exact ⟨rfl, by decide, rfl⟩

/-- Witness for C8 at the unparseable host setting `localhost`. -/
theorem listening_config_witness :
    resolveAddr (some "localhost") none = none ∧
    run_server (some "localhost") none (fun _ => BindResult.bound)
        (fun _ => ServeResult.gracefulShutdown) = ServerRun.parsePanic ∧
    exitCode (run_server (some "localhost") none (fun _ => BindResult.bound)
        (fun _ => ServeResult.gracefulShutdown)) ≠ 0 ∧
    reachedServing (run_server (some "localhost") none (fun _ => BindResult.bound)
        (fun _ => ServeResult.gracefulShutdown)) = false :=
  ⟨by decide,
   (listening_config (some "localhost") none (fun _ => BindResult.bound)
       (fun _ => ServeResult.gracefulShutdown)).2.2.2.2 (by decide)⟩

/-- C9: the exit status is 0 exactly when the server loop terminates
gracefully; a bind failure (a panic inside the bind) and a protocol-level
server error both yield a non-zero status. -/
theorem exit_status_spec (he pe : Option String)
    (bind : SocketAddr → BindResult) (serve : SocketAddr → ServeResult) :
    exitCode (ServerRun.served ServeResult.gracefulShutdown) = 0 ∧
    exitCode ServerRun.bindPanic ≠ 0 ∧
    exitCode (ServerRun.served ServeResult.protocolError) ≠ 0 ∧
    (exitCode (run_server he pe bind serve) = 0 ↔
      run_server he pe bind serve = ServerRun.served ServeResult.gracefulShutdown) := by
  have hall : ∀ r : ServerRun, exitCode r = 0 ↔
      r = ServerRun.served ServeResult.gracefulShutdown := by
    intro r
    cases r with
    | parsePanic => simp [exitCode, PANIC_EXIT_CODE]
    | bindPanic => simp [exitCode, PANIC_EXIT_CODE]
    | served s => cases s <;> simp [exitCode]
  exact ⟨rfl, by decide, by decide, hall (run_server he pe bind serve)⟩

/-- C10: every successfully translated normalized request carries
`timeout_ms = 0`; the timeout hint is never populated from the incoming
request. -/
theorem timeout_hint_always_zero (m uri : String)
    (hs : List (String × HeaderValue)) (body : List Nat)
    (req : RequestToAndFromHost)
    (h : translateRequest m uri hs body = some req) : req.timeout_ms = 0 := by
  unfold translateRequest at h
  cases htr : translateHeaders hs with
  | none => rw [htr] at h; exact absurd h (by simp)
  | some hdrs =>
    rw [htr] at h
    simp only [Option.some.injEq] at h
    rw [← h]

/-- Witness for C10 at a concrete GET request with no headers. -/
theorem timeout_hint_always_zero_witness :
    ({ body := [], headers := [], method := MethodTag.get, uri := "/",
       method_ext := "", timeout_ms := 0 } : RequestToAndFromHost).timeout_ms = 0 :=
  timeout_hint_always_zero "GET" "/" [] []
    { body := [], headers := [], method := MethodTag.get, uri := "/",
      method_ext := "", timeout_ms := 0 } rfl

end HttpServer
